import Mathlib

/-!
Shallow embedding of the blood-donation backend (`src/models.js`, `src/routes.js`).

The Mongo document store is modelled as in-memory lists of documents; each
route handler becomes a pure function from a `Store` (plus the request
parameters that the handler reads) to a result and an updated `Store`.
Mongoose schema validation that the handlers can actually hit (enum checks on
`Request.status`, `Request.blood_group` and `Notification.region`) is modelled
explicitly; `ObjectId`s become `Nat`s, timestamps become `Nat`s, and the
case-insensitive `RegExp` name filter is modelled as a case-insensitive
substring test.  Credential fields (`password_hash`) and the auth middleware
are outside the routes verified here and are omitted.
-/

/-- Enum of `RequestSchema.status` (`models.js`), also the `validStatuses`
list hard-coded in the `POST /requests/:id/status` handler. -/
def validStatuses : List String := ["Pending", "Approved", "Fulfilled", "Critical"]

/-- Enum of blood types shared by `UserSchema.blood_type`,
`BloodInventorySchema.blood_type` and `RequestSchema.blood_group`. -/
def bloodTypes : List String := ["A+", "A-", "B+", "B-", "O+", "O-", "AB+", "AB-"]

/-- Enum of `UserSchema.region` and `NotificationSchema.region`. -/
def regionNames : List String := ["North", "East", "West", "South"]

/-- Enum of `NotificationSchema.role`. -/
def notificationRoles : List String := ["user", "donor", "admin", "all"]

/-- A `User` document.  `region` is optional (admins have none, and an
admin role-change can leave any document without one). -/
structure UserDoc where
  id : Nat
  full_name : String
  email : String
  phone : String
  role : String
  blood_type : String
  region : Option String
deriving Repr, DecidableEq

/-- One entry of `DonorSchema.donation_log`. -/
structure DonationEntry where
  date : Nat
  units : Int
  notes : String
deriving Repr, DecidableEq

/-- A `Donor` document (1:1 extension of a donor-role user). -/
structure DonorDoc where
  user_id : Nat
  availability : Bool
  last_donation_date : Option Nat
  reputation : Int
  donation_log : List DonationEntry
deriving Repr, DecidableEq

/-- A `BloodInventory` document. -/
structure InventoryDoc where
  blood_type : String
  available_units : Int
  status : String
deriving Repr, DecidableEq

/-- The `approved_by` subdocument of a `Request`. -/
structure ApprovedBy where
  name : String
  phone : String
deriving Repr, DecidableEq

/-- A `Request` document (`timestamps: true` gives `createdAt`). -/
structure RequestDoc where
  id : Nat
  requester_id : Nat
  blood_group : String
  region : String
  hospital : String
  notes : String
  status : String
  approved_by : Option ApprovedBy
  createdAt : Nat
deriving Repr, DecidableEq

/-- A `Notification` document.  The handler also passes `type` and `status`
fields, but `NotificationSchema` has no such paths, so strict mode drops
them; they are therefore not part of the stored document. -/
structure NotificationDoc where
  title : String
  message : String
  role : String
  region : Option String
  isRead : Bool
  createdAt : Nat
deriving Repr, DecidableEq

/-- A `BloodBank` document (directory entry; `available_units` map elided,
no verified route touches it). -/
structure BloodBankDoc where
  name : String
  location : String
  contact : String
deriving Repr, DecidableEq

/-- The whole persistent state: one collection per entity. -/
structure Store where
  users : List UserDoc
  donors : List DonorDoc
  inventory : List InventoryDoc
  requests : List RequestDoc
  notifications : List NotificationDoc
  banks : List BloodBankDoc
deriving Repr, DecidableEq

/-- JS falsiness of an optional string body/query field:
`undefined` and `""` are falsy. -/
def isBlank : Option String → Bool
  | none => true
  | some s => s == ""

/-- JS truthiness of an optional string (negation of `isBlank`). -/
def truthy (o : Option String) : Bool := !(isBlank o)

/-- Query-parameter guard `if (param) query.field = param`: an absent or
empty parameter leaves the field unconstrained. -/
def qActive : Option String → Option String
  | none => none
  | some s => if s == "" then none else some s

/-- Case-insensitive substring test, modelling
`new RegExp(pattern, "i").test(text)` for a pattern without
metacharacters. -/
def containsCI (text pattern : String) : Bool :=
  ((text.toLower).splitOn pattern.toLower).length > 1 || pattern == ""

/-! ## `POST /requests` — submitRequest -/

/-- `Request.create` with Mongoose validation: `blood_group` must be one of
the schema's enum values, and a supplied `status` must be one of
`validStatuses` (an absent status takes the schema default `"Pending"`).
`region` has no enum on `RequestSchema`. -/
def requestCreate (newId uid now : Nat) (bg rg hosp nts : String)
    (st : Option String) : Except String RequestDoc :=
  if bloodTypes.contains bg then
    match st with
    | none =>
        .ok ⟨newId, uid, bg, rg, hosp, nts, "Pending", none, now⟩
    | some v =>
        if validStatuses.contains v then
          .ok ⟨newId, uid, bg, rg, hosp, nts, v, none, now⟩
        else .error "Request validation failed"
  else .error "Request validation failed"

/-- The donor-role users matched by
`User.find({ role: "donor", blood_type: blood_group, region })`. -/
def matchingDonorUsers (s : Store) (bg rg : String) : List UserDoc :=
  s.users.filter fun u =>
    u.role == "donor" && u.blood_type == bg && u.region == some rg

/-- The notification the fan-out builds for each matched donor user. -/
def mkMatchNotification (bg rg : String) (now : Nat) : NotificationDoc :=
  { title := "New Matching Request"
    message := "A new request for " ++ bg ++
      " has been posted in your region (" ++ rg ++ ")."
    role := "donor"
    region := some rg
    isRead := false
    createdAt := now }

/-- `Notification.insertMany` validation for one document (required
non-empty strings, role enum, region enum when present). -/
def notificationValid (n : NotificationDoc) : Bool :=
  n.title != "" && n.message != "" && notificationRoles.contains n.role &&
    (match n.region with
     | none => true
     | some r => regionNames.contains r)

inductive SubmitResult where
  | created (r : RequestDoc)   -- 201
  | badRequest                 -- 400, "Blood group and region are required"
  | serverError (msg : String) -- 500
deriving Repr, DecidableEq

/-- The `POST /requests` handler.  `newId` and `now` stand for the id the
store assigns and the current time.  Note the fan-out: the request is
persisted first; a failing `insertMany` yields a 500 but does not roll the
request back. -/
def submitRequest (s : Store) (uid newId now : Nat)
    (blood_group region hospital notes status : Option String) :
    SubmitResult × Store :=
  if isBlank blood_group || isBlank region then (.badRequest, s)
  else
    match blood_group, region with
    | some bg, some rg =>
      match requestCreate newId uid now bg rg
          (hospital.getD "") (notes.getD "") status with
      | .error m => (.serverError m, s)
      | .ok req =>
        let s1 : Store := { s with requests := s.requests ++ [req] }
        let donorUsers := matchingDonorUsers s1 bg rg
        let notifs := donorUsers.map fun _ => mkMatchNotification bg rg now
        if notifs.length > 0 then
          if notifs.all notificationValid then
            (.created req,
              { s1 with notifications := s1.notifications ++ notifs })
          else (.serverError "Notification validation failed", s1)
        else (.created req, s1)
    | _, _ => (.badRequest, s)

/-! ## `POST /requests/:id/status` — updateRequestStatus -/

inductive StatusResult where
  | ok (r : RequestDoc)  -- 200
  | invalidStatus        -- 400, "Invalid status. Valid options: ..."
  | notFound             -- 404, "Request not found"
  | serverError          -- 500 (e.g. the actor's User record is gone)
deriving Repr, DecidableEq

/-- The `POST /requests/:id/status` handler: the `!status ||
!validStatuses.includes(status)` guard runs before `Request.findById`; on
`"Approved"` the approver's name and phone are snapshotted from the actor's
current `User` document (a missing actor makes `approver.full_name` throw,
caught as a 500 with no save). -/
def updateRequestStatus (s : Store) (actorId rid : Nat)
    (status : Option String) : StatusResult × Store :=
  match status with
  | none => (.invalidStatus, s)
  | some st =>
    if !(validStatuses.contains st) then (.invalidStatus, s)
    else
      match s.requests.find? (fun r => r.id == rid) with
      | none => (.notFound, s)
      | some req =>
        if st == "Approved" then
          match s.users.find? (fun u => u.id == actorId) with
          | none => (.serverError, s)
          | some approver =>
            let req' : RequestDoc :=
              { req with
                  approved_by := some ⟨approver.full_name, approver.phone⟩
                  status := st }
            (.ok req',
              { s with requests :=
                  s.requests.map fun r => if r.id == rid then req' else r })
        else
          let req' : RequestDoc := { req with status := st }
          (.ok req',
            { s with requests :=
                s.requests.map fun r => if r.id == rid then req' else r })

/-! ## `GET /requests` and `GET /requests/user` — listRequests -/

/-- The requester summary that
`.populate("requester_id", "full_name blood_type phone region")` joins onto
each request. -/
structure RequesterSummary where
  id : Nat
  full_name : String
  blood_type : String
  phone : String
  region : Option String
deriving Repr, DecidableEq

/-- Populate one request's `requester_id` reference. -/
def populateRequester (s : Store) (r : RequestDoc) :
    RequestDoc × Option RequesterSummary :=
  (r, (s.users.find? fun u => u.id == r.requester_id).map
        fun u => ⟨u.id, u.full_name, u.blood_type, u.phone, u.region⟩)

/-- `.sort({ createdAt: -1 })` order on requests: newest first. -/
def newestFirstReq (a b : RequestDoc) : Prop := b.createdAt ≤ a.createdAt

instance : DecidableRel newestFirstReq := fun a b => Nat.decLe b.createdAt a.createdAt

instance : IsTotal RequestDoc newestFirstReq :=
  ⟨fun a b => Nat.le_total b.createdAt a.createdAt⟩

instance : IsTrans RequestDoc newestFirstReq :=
  ⟨fun _ _ _ h1 h2 => Nat.le_trans h2 h1⟩

inductive ListResult where
  | ok (rs : List (RequestDoc × Option RequesterSummary))  -- 200
  | badRequest    -- 400, "Donor region not set"
  | serverError   -- 500 (donor's User record is gone: `donor.region` throws)
deriving Repr, DecidableEq

/-- The `GET /requests` handler: admin sees all requests, a donor sees the
requests of their own region (400 when their region is unset), any other
role sees its own requests; every branch sorts `createdAt` descending and
populates the requester. -/
def listRequests (s : Store) (uid : Nat) (role : String) : ListResult :=
  if role == "admin" then
    .ok ((List.insertionSort newestFirstReq s.requests).map (populateRequester s))
  else if role == "donor" then
    match s.users.find? (fun u => u.id == uid) with
    | none => .serverError
    | some donor =>
      if !(truthy donor.region) then .badRequest
      else
        .ok ((List.insertionSort newestFirstReq
              (s.requests.filter fun r => some r.region == donor.region)).map
            (populateRequester s))
  else
    .ok ((List.insertionSort newestFirstReq
          (s.requests.filter fun r => r.requester_id == uid)).map
        (populateRequester s))

/-- The `GET /requests/user` handler (restricted to role `user`):
`Request.find({ requester_id })` with no sort and no populate — the store's
natural order. -/
def listUserRequests (s : Store) (uid : Nat) : List RequestDoc :=
  s.requests.filter fun r => r.requester_id == uid

/-! ## `POST /donors/donate` — recordDonation -/

inductive DonateResult where
  | ok (lastDate : Nat) (log : List DonationEntry) (invType : String)
      (invUnits : Int)     -- 200, response payload fields
  | notFound               -- 404, "Donor profile not found"
  | serverError            -- 500
deriving Repr, DecidableEq

/-- The `POST /donors/donate` handler.  Body defaults: `units = 1`,
`notes = ""`, then `notes || "Recorded via dashboard"`.  The donor's log is
saved first; only then is the `User` looked up for the blood type and the
inventory row read-modified-written (created with `available_units = units`
when absent, subject to the blood-type enum). -/
def recordDonation (s : Store) (uid : Nat) (units : Option Int)
    (notes : Option String) (now : Nat) : DonateResult × Store :=
  let u : Int := units.getD 1
  let n0 : String := notes.getD ""
  let nts : String := if n0 == "" then "Recorded via dashboard" else n0
  match s.donors.find? (fun d => d.user_id == uid) with
  | none => (.notFound, s)
  | some donor =>
    let donor' : DonorDoc :=
      { donor with
          donation_log := donor.donation_log ++ [⟨now, u, nts⟩]
          last_donation_date := some now }
    let s1 : Store :=
      { s with donors :=
          s.donors.map fun d => if d.user_id == uid then donor' else d }
    match s1.users.find? (fun usr => usr.id == uid) with
    | none => (.serverError, s1)
    | some user =>
      match s1.inventory.find? (fun i => i.blood_type == user.blood_type) with
      | none =>
        if bloodTypes.contains user.blood_type then
          let inv : InventoryDoc := ⟨user.blood_type, u, "Medium"⟩
          (.ok now donor'.donation_log inv.blood_type inv.available_units,
            { s1 with inventory := s1.inventory ++ [inv] })
        else (.serverError, s1)
      | some inv =>
        let inv' : InventoryDoc :=
          { inv with available_units := inv.available_units + u }
        (.ok now donor'.donation_log inv'.blood_type inv'.available_units,
          { s1 with inventory :=
              s1.inventory.map fun i =>
                if i.blood_type == user.blood_type then inv' else i })

/-! ## `GET /donors/search` — searchDonors -/

/-- `.sort({ full_name: 1 })` order on users. -/
def byFullName (a b : UserDoc) : Prop := a.full_name ≤ b.full_name

instance : DecidableRel byFullName := fun a b =>
  inferInstanceAs (Decidable (a.full_name ≤ b.full_name))

instance : IsTotal UserDoc byFullName := ⟨fun a b => le_total a.full_name b.full_name⟩

instance : IsTrans UserDoc byFullName := ⟨fun _ _ _ h1 h2 => le_trans h1 h2⟩

/-- The user query of `GET /donors/search`: always `role: "donor"`, plus
each filter that was supplied as a truthy query parameter. -/
def donorSearchPred (blood_type name region : Option String) (u : UserDoc) : Bool :=
  u.role == "donor" &&
    (match qActive blood_type with
     | none => true
     | some bt => u.blood_type == bt) &&
    (match qActive region with
     | none => true
     | some rg => u.region == some rg) &&
    (match qActive name with
     | none => true
     | some nm => containsCI u.full_name nm)

/-- The `{success, message, data}` envelope of `GET /donors/search`. -/
structure SearchResp where
  success : Bool
  message : String
  data : List (UserDoc × Option Bool)
deriving Repr, DecidableEq

/-- The `GET /donors/search` handler: filtered donor-role users sorted by
name, each annotated with `donorData?.availability` from the `Donor`
collection (`none` when the profile is missing); an empty match list is a
success response, not an error. -/
def searchDonors (s : Store) (blood_type name region : Option String) :
    SearchResp :=
  let users := List.insertionSort byFullName
    (s.users.filter (donorSearchPred blood_type name region))
  let annotated := users.map fun u =>
    (u, (s.donors.find? fun d => d.user_id == u.id).map (·.availability))
  if annotated.length == 0 then
    ⟨true, "No donors found for given criteria", []⟩
  else
    ⟨true, "Donor search results", annotated⟩

/-! ## `GET /notifications` — listNotifications -/

/-- `.sort({ createdAt: -1 })` order on notifications. -/
def newestFirstNotif (a b : NotificationDoc) : Prop := b.createdAt ≤ a.createdAt

instance : DecidableRel newestFirstNotif := fun a b =>
  Nat.decLe b.createdAt a.createdAt

instance : IsTotal NotificationDoc newestFirstNotif :=
  ⟨fun a b => Nat.le_total b.createdAt a.createdAt⟩

instance : IsTrans NotificationDoc newestFirstNotif :=
  ⟨fun _ _ _ h1 h2 => Nat.le_trans h2 h1⟩

/-- The Mongo filter the `GET /notifications` handler builds from the
caller's `User` document.  In the final branch the query is
`{$or: [{role: "all"}, {role: user.role, region: user.region}]}`; when
`user.region` is `undefined` Mongoose strips the `region` key from the
filter, so the clause degenerates to a bare role match. -/
def notifVisible (user : UserDoc) : NotificationDoc → Bool :=
  if user.role == "admin" then fun _ => true
  else if user.role == "donor" && truthy user.region then
    fun n => n.role == "all" || (n.role == "donor" && n.region == user.region)
  else
    fun n => n.role == "all" ||
      (n.role == user.role &&
        (match user.region with
         | none => true
         | some rg => n.region == some rg))

inductive NotifResult where
  | ok (ns : List NotificationDoc)  -- 200
  | notFound                        -- 404, "User not found"
deriving Repr, DecidableEq

/-- The `GET /notifications` handler. -/
def listNotifications (s : Store) (uid : Nat) : NotifResult :=
  match s.users.find? (fun u => u.id == uid) with
  | none => .notFound
  | some user =>
    .ok (List.insertionSort newestFirstNotif
      (s.notifications.filter (notifVisible user)))

/-- The visibility rule as the spec words it: any non-admin caller sees
`{role = all} ∪ {role = own-role, region = own-region}`, the notification's
(possibly absent) region compared against the caller's (possibly absent)
region. -/
def specNotifVisible (user : UserDoc) (n : NotificationDoc) : Bool :=
  if user.role == "admin" then true
  else n.role == "all" || (n.role == user.role && n.region == user.region)

/-! ## `PUT /donors/availability` — setAvailability -/

/-- A JSON body value as far as `availability === true ||
availability === "true"` can distinguish it. -/
inductive BodyVal where
  | vBool (b : Bool)
  | vStr (s : String)
  | vNum (n : Int)
  | vNull
  | vMissing
deriving Repr, DecidableEq

/-- `availability === true || availability === "true"`. -/
def coerceAvailability : BodyVal → Bool
  | .vBool b => b
  | .vStr s => s == "true"
  | _ => false

inductive SetAvailResult where
  | ok (availability : Bool)  -- 200, response data
  | notFound                  -- 404, "Donor profile not found"
deriving Repr, DecidableEq

/-- The `PUT /donors/availability` handler: the body value is coerced to a
boolean before the store is touched, so no input is rejected;
`findOneAndUpdate` returns 404 and changes nothing when no `Donor` profile
matches. -/
def setAvailability (s : Store) (uid : Nat) (v : BodyVal) :
    SetAvailResult × Store :=
  let avail := coerceAvailability v
  match s.donors.find? (fun d => d.user_id == uid) with
  | none => (.notFound, s)
  | some _ =>
    (.ok avail,
      { s with donors :=
          s.donors.map fun d =>
            if d.user_id == uid then { d with availability := avail } else d })

/-! ## Concrete sample documents (used by witnesses and counterexamples) -/

def uAlice : UserDoc := ⟨1, "Alice", "alice@x", "111", "donor", "O+", some "North"⟩
def uBob : UserDoc := ⟨2, "Bob", "bob@x", "222", "user", "O+", some "North"⟩
def uCara : UserDoc := ⟨3, "Cara", "cara@x", "333", "user", "A+", some "East"⟩
def uDila : UserDoc := ⟨4, "Dila", "dila@x", "444", "donor", "O+", none⟩
def uRoot : UserDoc := ⟨5, "Root", "root@x", "555", "admin", "O+", none⟩
def uErin : UserDoc := ⟨6, "Erin", "erin@x", "666", "donor", "O+", some "East"⟩

def dAlice : DonorDoc := ⟨1, true, none, 5, []⟩
def dDila : DonorDoc := ⟨4, false, none, 5, []⟩

def invO : InventoryDoc := ⟨"O+", 7, "Medium"⟩

def reqOld : RequestDoc := ⟨10, 2, "O+", "North", "", "", "Pending", none, 5⟩
def reqNew : RequestDoc := ⟨11, 2, "B+", "East", "", "", "Pending", none, 9⟩
def reqCara : RequestDoc := ⟨12, 3, "O+", "East", "", "", "Pending", none, 7⟩

def nAll : NotificationDoc := ⟨"t1", "m1", "all", none, false, 3⟩
def nDonorNorth : NotificationDoc := ⟨"t2", "m2", "donor", some "North", false, 6⟩
def nUserNorth : NotificationDoc := ⟨"t3", "m3", "user", some "North", false, 4⟩

def baseStore : Store :=
  ⟨[uAlice, uBob, uCara, uDila, uRoot, uErin], [dAlice, dDila], [invO],
    [reqOld, reqNew, reqCara], [nAll, nDonorNorth, nUserNorth], []⟩

/-! ## Helper lemmas -/

/-- Updating (via `map`) exactly the documents a predicate selects moves
`find?` to the updated first match, provided the update preserves the
predicate. -/
theorem find?_map_update {α : Type} (p : α → Bool) (f : α → α)
    (hf : ∀ a, p a = true → p (f a) = true) :
    ∀ (l : List α) (x : α), l.find? p = some x →
      (l.map fun r => if p r then f r else r).find? p = some (f x) := by
  intro l
  induction l with
  | nil => intro x hx; simp at hx
  | cons a t ih =>
    intro x hx
    cases hpa : p a with
    | true =>
      have hax : a = x := by
        rw [List.find?_cons_of_pos _ hpa] at hx
        exact Option.some.inj hx
      subst hax
      simp only [List.map_cons, if_pos hpa]
      exact List.find?_cons_of_pos _ (hf a hpa)
    | false =>
      have hx' : t.find? p = some x := by
        rwa [List.find?_cons_of_neg _ (by simp [hpa])] at hx
      simp only [List.map_cons, if_neg (by simp [hpa] : ¬ p a = true)]
      rw [List.find?_cons_of_neg _ (by simp [hpa])]
      exact ih x hx'

/-! ## C10 -/

/-- C10: `setAvailability` never fails on malformed input — the result is
always `ok` or `notFound`; the stored flag is `true` iff the body value is
the boolean `true` or the string `"true"` (everything else, a missing field
included, stores `false`); `notFound` arises exactly when no `Donor`
profile exists, and then the store is untouched. -/
theorem setAvailability_total_coercion (s : Store) (uid : Nat) (v : BodyVal) :
    ((setAvailability s uid v).1 = .ok (coerceAvailability v) ∨
      (setAvailability s uid v).1 = .notFound) ∧
    (coerceAvailability v = true ↔ (v = .vBool true ∨ v = .vStr "true")) ∧
    (∀ d, s.donors.find? (fun d => d.user_id == uid) = some d →
      (setAvailability s uid v).1 = .ok (coerceAvailability v) ∧
      (setAvailability s uid v).2.donors.find? (fun d => d.user_id == uid) =
        some { d with availability := coerceAvailability v }) ∧
    (s.donors.find? (fun d => d.user_id == uid) = none →
      setAvailability s uid v = (.notFound, s)) := by
  refine ⟨?_, ?_, ?_, ?_⟩
  · unfold setAvailability
    cases h : s.donors.find? (fun d => d.user_id == uid) <;> simp [h]
  · cases v with
    | vBool b => cases b <;> simp [coerceAvailability]
    | vStr t => simp [coerceAvailability]
    | vNum n => simp [coerceAvailability]
    | vNull => simp [coerceAvailability]
    | vMissing => simp [coerceAvailability]
  · intro d hd
    constructor
    · unfold setAvailability; rw [hd]
    · unfold setAvailability
      rw [hd]
      exact find?_map_update _ _ (fun a ha => by simpa using ha) _ _ hd
  · intro hnone
    unfold setAvailability
    rw [hnone]

/-- Closed instance of `setAvailability_total_coercion`: in `baseStore`,
user 4 has a Donor profile; a malformed body value `"yes"` is accepted and
stores `false`. -/
theorem setAvailability_total_coercion_witness :
    (setAvailability baseStore 4 (.vStr "yes")).1 = .ok false ∧
    (setAvailability baseStore 4 (.vStr "yes")).2.donors.find?
        (fun d => d.user_id == 4) = some { dDila with availability := false } :=
  (setAvailability_total_coercion baseStore 4 (.vStr "yes")).2.2.1 dDila (by decide)

/-! ## C9 -/

/-- The status guard of `POST /requests/:id/status`:
`!status || !validStatuses.includes(status)`. -/
def statusInvalidB : Option String → Bool
  | none => true
  | some st => !(validStatuses.contains st)

/-- C9: `updateRequestStatus` checks status validity before request
existence — an invalid or missing status yields 400 with the store
untouched whatever the store holds; a valid status with no matching
request yields 404 with the store untouched; and 404 arises only in that
second situation. -/
theorem updateRequestStatus_validates_before_lookup (s : Store)
    (aid rid : Nat) (status : Option String) :
    (statusInvalidB status = true →
      updateRequestStatus s aid rid status = (.invalidStatus, s)) ∧
    (statusInvalidB status = false →
      s.requests.find? (fun r => r.id == rid) = none →
      updateRequestStatus s aid rid status = (.notFound, s)) ∧
    ((updateRequestStatus s aid rid status).1 = .notFound →
      statusInvalidB status = false ∧
      s.requests.find? (fun r => r.id == rid) = none) := by
  cases status with
  | none =>
    refine ⟨fun _ => by simp [updateRequestStatus], fun h => by simp [statusInvalidB] at h,
      fun hres => ?_⟩
    exfalso
    simp [updateRequestStatus] at hres
  | some st =>
    by_cases hm : st ∈ validStatuses
    · refine ⟨fun h => by simp [statusInvalidB, hm] at h, fun _ hfind => ?_, fun hres => ?_⟩
      · simp [updateRequestStatus, hm, hfind]
      · refine ⟨by simp [statusInvalidB, hm], ?_⟩
        cases hfind : s.requests.find? (fun r => r.id == rid) with
        | none => rfl
        | some req =>
          exfalso
          by_cases hap : st = "Approved"
          · cases hu : s.users.find? (fun u => u.id == aid) with
            | none =>
              simp [updateRequestStatus, hm, hfind, hap, hu,
                show ("Approved" ∈ validStatuses) from by decide] at hres
            | some ap =>
              simp [updateRequestStatus, hm, hfind, hap, hu,
                show ("Approved" ∈ validStatuses) from by decide] at hres
          · simp [updateRequestStatus, hm, hfind, hap] at hres
    · refine ⟨fun _ => by simp [updateRequestStatus, hm],
        fun h => by simp [statusInvalidB, hm] at h, fun hres => ?_⟩
      exfalso
      simp [updateRequestStatus, hm] at hres

/-- Closed instance of `updateRequestStatus_validates_before_lookup`: the
unknown status `"Done"` is rejected with the store untouched even though
request 10 exists, and the valid status `"Approved"` on the missing id 99
is a 404 with the store untouched. -/
theorem updateRequestStatus_validates_before_lookup_witness :
    updateRequestStatus baseStore 5 10 (some "Done") = (.invalidStatus, baseStore) ∧
    updateRequestStatus baseStore 5 99 (some "Approved") = (.notFound, baseStore) :=
  ⟨(updateRequestStatus_validates_before_lookup baseStore 5 10 (some "Done")).1
      (by decide),
   (updateRequestStatus_validates_before_lookup baseStore 5 99 (some "Approved")).2.1
      (by decide) (by decide)⟩

/-! ## C3 -/

/-- C3: on an existing request, `"Approved"` stamps `approved_by` with the
acting user's current name and phone; a subsequent `"Fulfilled"` transition
on the same request changes only the status and leaves `approved_by` as
stamped (both in the returned document and in the store). -/
theorem approvedBy_snapshot_then_fulfilled_frame (s : Store)
    (rid aid aid2 : Nat) (req : RequestDoc) (actor : UserDoc)
    (hreq : s.requests.find? (fun r => r.id == rid) = some req)
    (hact : s.users.find? (fun u => u.id == aid) = some actor) :
    (updateRequestStatus s aid rid (some "Approved")).1 =
      .ok { req with status := "Approved",
                     approved_by := some ⟨actor.full_name, actor.phone⟩ } ∧
    (updateRequestStatus (updateRequestStatus s aid rid (some "Approved")).2
        aid2 rid (some "Fulfilled")).1 =
      .ok { req with status := "Fulfilled",
                     approved_by := some ⟨actor.full_name, actor.phone⟩ } ∧
    (updateRequestStatus (updateRequestStatus s aid rid (some "Approved")).2
        aid2 rid (some "Fulfilled")).2.requests.find? (fun r => r.id == rid) =
      some { req with status := "Fulfilled",
                      approved_by := some ⟨actor.full_name, actor.phone⟩ } := by
  have hpreq : (req.id == rid) = true := by simpa using List.find?_some hreq
  have h2 : (s.requests.map fun r =>
      if r.id == rid then
        ({ req with status := "Approved", approved_by := some ⟨actor.full_name, actor.phone⟩ } : RequestDoc)
      else r).find? (fun r => r.id == rid) =
      some { req with status := "Approved", approved_by := some ⟨actor.full_name, actor.phone⟩ } :=
    find?_map_update (fun r => r.id == rid)
      (fun _ => { req with status := "Approved", approved_by := some ⟨actor.full_name, actor.phone⟩ })
      (fun _ _ => hpreq) s.requests req hreq
  refine ⟨?_, ?_, ?_⟩
  · simp +decide only [updateRequestStatus, hreq, hact, if_true, if_false]
  · simp +decide only [updateRequestStatus, hreq, hact, h2, if_true, if_false]
  · simp +decide only [updateRequestStatus, hreq, hact, h2, if_true, if_false]
    exact find?_map_update (fun r => r.id == rid)
      (fun _ => { req with status := "Fulfilled", approved_by := some ⟨actor.full_name, actor.phone⟩ })
      (fun _ _ => hpreq) _ _ h2

/-- Closed instance of `approvedBy_snapshot_then_fulfilled_frame`: admin 5
approves request 10 in `baseStore`, then user 2 marks it fulfilled;
`approved_by` stays `{Root, 555}`. -/
theorem approvedBy_snapshot_then_fulfilled_frame_witness :
    (updateRequestStatus (updateRequestStatus baseStore 5 10 (some "Approved")).2
        2 10 (some "Fulfilled")).2.requests.find? (fun r => r.id == 10) =
      some { reqOld with status := "Fulfilled",
                         approved_by := some ⟨"Root", "555"⟩ } :=
  (approvedBy_snapshot_then_fulfilled_frame baseStore 10 5 2 reqOld uRoot
    (by decide) (by decide)).2.2

/-! ## Shared facts about `submitRequest` -/

/-- When the presence guard passes and `Request.create` succeeds,
`submitRequest` reduces to the fan-out decision. -/
theorem submitRequest_create_eq (s : Store) (uid newId now : Nat)
    (bg rg : String) (hospital notes status : Option String) (rq : RequestDoc)
    (hb : ¬((isBlank (some bg) || isBlank (some rg)) = true))
    (hc : requestCreate newId uid now bg rg (hospital.getD "") (notes.getD "")
        status = .ok rq) :
    submitRequest s uid newId now (some bg) (some rg) hospital notes status =
      (if ((matchingDonorUsers s bg rg).map fun _ =>
            mkMatchNotification bg rg now).length > 0 then
        if ((matchingDonorUsers s bg rg).map fun _ =>
            mkMatchNotification bg rg now).all notificationValid then
          (.created rq,
            { s with
                requests := s.requests ++ [rq]
                notifications := s.notifications ++
                  ((matchingDonorUsers s bg rg).map fun _ =>
                    mkMatchNotification bg rg now) })
        else (.serverError "Notification validation failed",
          { s with requests := s.requests ++ [rq] })
      else (.created rq, { s with requests := s.requests ++ [rq] })) := by
  unfold submitRequest
  rw [if_neg hb]
  simp only [hc]
  rfl

/-- When the presence guard passes but `Request.create` is rejected by
schema validation, nothing is persisted and the response is a 500. -/
theorem submitRequest_create_error (s : Store) (uid newId now : Nat)
    (bg rg : String) (hospital notes status : Option String) (m : String)
    (hb : ¬((isBlank (some bg) || isBlank (some rg)) = true))
    (hc : requestCreate newId uid now bg rg (hospital.getD "") (notes.getD "")
        status = .error m) :
    submitRequest s uid newId now (some bg) (some rg) hospital notes status =
      (.serverError m, s) := by
  unfold submitRequest
  rw [if_neg hb]
  simp only [hc]

/-! ## C1 -/

/-- C1: after any successful `submitRequest` with blood group `bg` and
region `rg`, exactly one templated Notification (role `"donor"`, region
`rg`) has been appended per pre-existing donor-role user whose
`blood_type` is `bg` and whose `region` is `rg`; when no such user exists
the notification collection is unchanged. -/
theorem submitRequest_notifies_each_matching_donor (s : Store)
    (uid newId now : Nat) (bg rg : String)
    (hospital notes status : Option String) (req : RequestDoc)
    (h : (submitRequest s uid newId now (some bg) (some rg) hospital notes
        status).1 = .created req) :
    (submitRequest s uid newId now (some bg) (some rg) hospital notes
        status).2.notifications =
      s.notifications ++
        ((matchingDonorUsers s bg rg).map fun _ => mkMatchNotification bg rg now) ∧
    (matchingDonorUsers s bg rg = [] →
      (submitRequest s uid newId now (some bg) (some rg) hospital notes
          status).2.notifications = s.notifications) := by
  by_cases hb : (isBlank (some bg) || isBlank (some rg)) = true
  · exfalso
    unfold submitRequest at h
    rw [if_pos hb] at h
    simp at h
  · cases hc : requestCreate newId uid now bg rg (hospital.getD "")
        (notes.getD "") status with
    | error m =>
      exfalso
      rw [submitRequest_create_error s uid newId now bg rg hospital notes
        status m hb hc] at h
      simp at h
    | ok rq =>
      rw [submitRequest_create_eq s uid newId now bg rg hospital notes
        status rq hb hc] at h ⊢
      by_cases hlen : ((matchingDonorUsers s bg rg).map fun _ =>
          mkMatchNotification bg rg now).length > 0
      · rw [if_pos hlen] at h ⊢
        by_cases hall : (((matchingDonorUsers s bg rg).map fun _ =>
            mkMatchNotification bg rg now).all notificationValid) = true
        · rw [if_pos hall] at h ⊢
          refine ⟨rfl, fun hmat => ?_⟩
          exfalso
          rw [hmat] at hlen
          simp at hlen
        · rw [if_neg hall] at h
          exact absurd h (by simp)
      · rw [if_neg hlen] at h ⊢
        have hmat : matchingDonorUsers s bg rg = [] := by
          by_contra hne
          exact hlen (by simpa [List.length_map] using List.length_pos.mpr hne)
        refine ⟨?_, fun _ => rfl⟩
        simp [hmat]

/-- Closed instance of `submitRequest_notifies_each_matching_donor`: in
`baseStore` exactly one donor-role user (Alice) has `O+`/`North`, so the
successful request appends exactly her notification. -/
theorem submitRequest_notifies_each_matching_donor_witness :
    (submitRequest baseStore 2 13 40 (some "O+") (some "North") none none
        none).2.notifications =
      baseStore.notifications ++
        ((matchingDonorUsers baseStore "O+" "North").map fun _ =>
          mkMatchNotification "O+" "North" 40) :=
  (submitRequest_notifies_each_matching_donor baseStore 2 13 40 "O+" "North"
    none none none ⟨13, 2, "O+", "North", "", "", "Pending", none, 40⟩
    (by decide)).1

/-! ## C5 -/

def emptyStore : Store := ⟨[], [], [], [], [], []⟩

/-- C5 counterexample: with `blood_group`/`region` present, a
caller-supplied status `"Done"` is NOT persisted — `RequestSchema`'s enum
rejects it, the handler answers 500 and no Request document is created,
contrary to the claim that any caller-supplied status is stored. -/
theorem submitRequest_trusts_any_status_counterexample :
    (submitRequest emptyStore 2 20 30 (some "O+") (some "North") none none
        (some "Done")).1 = .serverError "Request validation failed" ∧
    (submitRequest emptyStore 2 20 30 (some "O+") (some "North") none none
        (some "Done")).2.requests = [] := by
  decide

/-- C5 (amended): a missing or empty `blood_group`/`region` is a 400 with
nothing persisted; with both present and a schema-valid blood group, an
absent status persists the request with the default `"Pending"`, and a
caller-supplied status is persisted verbatim provided it is one of the four
schema statuses; a caller-supplied status outside the schema enum makes the
create fail (500) with nothing persisted. -/
theorem submitRequest_validation_and_status_default (s : Store)
    (uid newId now : Nat)
    (blood_group region hospital notes status : Option String) :
    ((isBlank blood_group || isBlank region) = true →
      submitRequest s uid newId now blood_group region hospital notes status =
        (.badRequest, s)) ∧
    (∀ bg rg, blood_group = some bg → region = some rg →
      ¬((isBlank blood_group || isBlank region) = true) →
      bloodTypes.contains bg = true →
      ((status = none →
        (submitRequest s uid newId now blood_group region hospital notes
            status).2.requests =
          s.requests ++
            [⟨newId, uid, bg, rg, hospital.getD "", notes.getD "", "Pending",
              none, now⟩]) ∧
       (∀ v, status = some v → validStatuses.contains v = true →
        (submitRequest s uid newId now blood_group region hospital notes
            status).2.requests =
          s.requests ++
            [⟨newId, uid, bg, rg, hospital.getD "", notes.getD "", v,
              none, now⟩]))) ∧
    (∀ bg rg v, blood_group = some bg → region = some rg →
      ¬((isBlank blood_group || isBlank region) = true) →
      status = some v → validStatuses.contains v = false →
      submitRequest s uid newId now blood_group region hospital notes status =
        (.serverError "Request validation failed", s)) := by
  refine ⟨fun hb => ?_, fun bg rg hbg hrg hb hbt => ?_, fun bg rg v hbg hrg hb hsv hvt => ?_⟩
  · unfold submitRequest
    rw [if_pos hb]
  · subst hbg; subst hrg
    have hreqs : ∀ rq, requestCreate newId uid now bg rg (hospital.getD "")
        (notes.getD "") status = .ok rq →
        (submitRequest s uid newId now (some bg) (some rg) hospital notes
            status).2.requests = s.requests ++ [rq] := by
      intro rq hc
      rw [submitRequest_create_eq s uid newId now bg rg hospital notes
        status rq hb hc]
      split
      · split
        · rfl
        · rfl
      · rfl
    constructor
    · intro hst
      subst hst
      exact hreqs _ (by unfold requestCreate; rw [if_pos hbt])
    · intro v hst hvt
      subst hst
      refine hreqs _ ?_
      unfold requestCreate
      rw [if_pos hbt]
      simp only [if_pos hvt]
  · subst hbg; subst hrg; subst hsv
    refine submitRequest_create_error s uid newId now bg rg hospital notes
      (some v) "Request validation failed" hb ?_
    unfold requestCreate
    by_cases hbt : bloodTypes.contains bg = true
    · rw [if_pos hbt]
      simp only [hvt, Bool.false_eq_true, if_false]
    · rw [if_neg hbt]

/-- Closed instance of `submitRequest_validation_and_status_default`: a
missing blood group is a 400; an omitted status persists `"Pending"`; the
supplied valid status `"Critical"` is persisted verbatim. -/
theorem submitRequest_validation_and_status_default_witness :
    submitRequest baseStore 2 21 41 none (some "North") none none none =
      (.badRequest, baseStore) ∧
    (submitRequest baseStore 2 21 41 (some "O+") (some "North") none none
        none).2.requests =
      baseStore.requests ++ [⟨21, 2, "O+", "North", "", "", "Pending", none, 41⟩] ∧
    (submitRequest baseStore 2 21 41 (some "O+") (some "North") none none
        (some "Critical")).2.requests =
      baseStore.requests ++ [⟨21, 2, "O+", "North", "", "", "Critical", none, 41⟩] :=
  ⟨(submitRequest_validation_and_status_default baseStore 2 21 41 none
      (some "North") none none none).1 (by decide),
   ((submitRequest_validation_and_status_default baseStore 2 21 41 (some "O+")
      (some "North") none none none).2.1 "O+" "North" rfl rfl (by decide)
      (by decide)).1 rfl,
   ((submitRequest_validation_and_status_default baseStore 2 21 41 (some "O+")
      (some "North") none none (some "Critical")).2.1 "O+" "North" rfl rfl
      (by decide) (by decide)).2 "Critical" rfl (by decide)⟩

/-! ## C2 -/

/-- Newest-first order carried over to populated rows. -/
def pairNewestFirst (a b : RequestDoc × Option RequesterSummary) : Prop :=
  b.1.createdAt ≤ a.1.createdAt

/-- C2: the admin listing and the donor listing of `GET /requests` are
sorted newest-first by `createdAt` (each a permutation of the populated
admissible set), while the self-scoped `GET /requests/user` listing is the
plain filter of the store — an order-preserving sublist of the store's
natural order, never sorted. -/
theorem listRequests_sort_asymmetry (s : Store) (uid uidA uidU : Nat)
    (du : UserDoc) (rg : String)
    (hu : s.users.find? (fun u => u.id == uid) = some du)
    (hr : du.region = some rg) (hrg : rg ≠ "") :
    (∃ la, listRequests s uidA "admin" = .ok la ∧
      la.Sorted pairNewestFirst ∧
      la.Perm (s.requests.map (populateRequester s))) ∧
    (∃ ld, listRequests s uid "donor" = .ok ld ∧
      ld.Sorted pairNewestFirst ∧
      ld.Perm ((s.requests.filter fun r => some r.region == du.region).map
        (populateRequester s))) ∧
    ((listUserRequests s uidU).Sublist s.requests ∧
      ∀ r, r ∈ listUserRequests s uidU ↔
        (r ∈ s.requests ∧ r.requester_id = uidU)) := by
  have ht : truthy du.region = true := by
    rw [hr]
    simp [truthy, isBlank, hrg]
  refine ⟨⟨(List.insertionSort newestFirstReq s.requests).map (populateRequester s),
      rfl, ?_, ?_⟩,
    ⟨(List.insertionSort newestFirstReq
        (s.requests.filter fun r => some r.region == du.region)).map
          (populateRequester s), ?_, ?_, ?_⟩, ?_, ?_⟩
  · exact List.Pairwise.map (populateRequester s) (fun a b h => h)
      (List.sorted_insertionSort newestFirstReq s.requests)
  · exact (List.perm_insertionSort newestFirstReq s.requests).map
      (populateRequester s)
  · simp +decide only [listRequests, hu, ht, Bool.not_true, Bool.false_eq_true,
      if_false, if_true]
  · exact List.Pairwise.map (populateRequester s) (fun a b h => h)
      (List.sorted_insertionSort newestFirstReq _)
  · exact (List.perm_insertionSort newestFirstReq _).map (populateRequester s)
  · exact List.filter_sublist s.requests
  · intro r
    simp [listUserRequests, List.mem_filter]

/-- Closed instance of `listRequests_sort_asymmetry`: Alice (user 1, donor,
region North) gives the donor branch its hypotheses; user 2's self-scoped
listing is `[reqOld, reqNew]` in store order, although `reqNew` is newer. -/
theorem listRequests_sort_asymmetry_witness :
    listUserRequests baseStore 2 = [reqOld, reqNew] ∧
    (listUserRequests baseStore 2).Sublist baseStore.requests ∧
    (reqOld ∈ listUserRequests baseStore 2 ↔
      (reqOld ∈ baseStore.requests ∧ reqOld.requester_id = 2)) :=
  ⟨by decide,
   (listRequests_sort_asymmetry baseStore 1 5 2 uAlice "North" (by decide)
      (by decide) (by decide)).2.2.1,
   (listRequests_sort_asymmetry baseStore 1 5 2 uAlice "North" (by decide)
      (by decide) (by decide)).2.2.2 reqOld⟩

/-! ## C7 -/

/-- C7: `GET /requests` never leaks across scopes — every row returned to a
`user`-role caller belongs to that caller, and every row returned to a
donor whose region is `"East"` has region `"East"`. -/
theorem listRequests_role_scoping (s : Store) (uid did : Nat) (du : UserDoc)
    (hu : s.users.find? (fun u => u.id == did) = some du)
    (hr : du.region = some "East") :
    (∀ l, listRequests s uid "user" = .ok l →
      ∀ p ∈ l, p.1.requester_id = uid) ∧
    (∀ l, listRequests s did "donor" = .ok l →
      ∀ p ∈ l, p.1.region = "East") := by
  have ht : truthy du.region = true := by rw [hr]; rfl
  constructor
  · intro l hl p hp
    have hX : listRequests s uid "user" =
        .ok ((List.insertionSort newestFirstReq
          (s.requests.filter fun r => r.requester_id == uid)).map
            (populateRequester s)) := rfl
    rw [hX] at hl
    cases hl
    rcases List.mem_map.mp hp with ⟨r, hrmem, rfl⟩
    have hrf := (List.mem_filter.mp ((List.mem_insertionSort newestFirstReq).mp hrmem)).2
    simpa using hrf
  · intro l hl p hp
    have hX : listRequests s did "donor" =
        .ok ((List.insertionSort newestFirstReq
          (s.requests.filter fun r => some r.region == du.region)).map
            (populateRequester s)) := by
      simp +decide only [listRequests, hu, ht, Bool.not_true,
        Bool.false_eq_true, if_false, if_true]
    rw [hX] at hl
    cases hl
    rcases List.mem_map.mp hp with ⟨r, hrmem, rfl⟩
    have hrf := (List.mem_filter.mp ((List.mem_insertionSort newestFirstReq).mp hrmem)).2
    rw [hr] at hrf
    simpa using hrf

/-- Closed instance of `listRequests_role_scoping`: Erin (user 6, donor,
region East) receives `reqNew` in `baseStore`, and its region is East. -/
theorem listRequests_role_scoping_witness :
    (populateRequester baseStore reqNew).1.region = "East" :=
  (listRequests_role_scoping baseStore 0 6 uErin (by decide) (by decide)).2
    ((List.insertionSort newestFirstReq
        (baseStore.requests.filter fun r => some r.region == uErin.region)).map
      (populateRequester baseStore))
    (by decide) (populateRequester baseStore reqNew) (by decide)

/-! ## C4 -/

/-- C4: a sequential `recordDonation` with `units = u` appends exactly one
log entry carrying `u` units, stamps `last_donation_date` with the donation
time, and credits the inventory row of the donor's blood type by exactly
`u` — creating that row with `available_units = u` when it does not exist. -/
theorem recordDonation_appends_and_credits (s : Store) (uid : Nat) (u : Int)
    (notes : Option String) (now : Nat) (d : DonorDoc) (usr : UserDoc)
    (hd : s.donors.find? (fun dd => dd.user_id == uid) = some d)
    (hu : s.users.find? (fun x => x.id == uid) = some usr)
    (hbt : bloodTypes.contains usr.blood_type = true) :
    ((recordDonation s uid (some u) notes now).2.donors.find?
        (fun dd => dd.user_id == uid) =
      some { d with
        donation_log := d.donation_log ++
          [⟨now, u, if (notes.getD "") == "" then "Recorded via dashboard"
            else notes.getD ""⟩]
        last_donation_date := some now }) ∧
    (s.inventory.find? (fun i => i.blood_type == usr.blood_type) = none →
      (recordDonation s uid (some u) notes now).2.inventory =
        s.inventory ++ [⟨usr.blood_type, u, "Medium"⟩]) ∧
    (∀ inv, s.inventory.find? (fun i => i.blood_type == usr.blood_type) =
        some inv →
      (recordDonation s uid (some u) notes now).2.inventory.find?
          (fun i => i.blood_type == usr.blood_type) =
        some { inv with available_units := inv.available_units + u }) := by
  have hpd : (d.user_id == uid) = true := by simpa using List.find?_some hd
  have hlog := find?_map_update (fun dd => dd.user_id == uid)
    (fun _ => { d with
      donation_log := d.donation_log ++
        [⟨now, (some u).getD 1, if (notes.getD "") == "" then "Recorded via dashboard" else notes.getD ""⟩]
      last_donation_date := some now })
    (fun _ _ => hpd) s.donors d hd
  refine ⟨?_, ?_, ?_⟩
  · simp only [recordDonation, hd, hu]
    cases hi : s.inventory.find? (fun i => i.blood_type == usr.blood_type) with
    | none =>
      simp only [hi]
      rw [if_pos hbt]
      exact hlog
    | some inv =>
      simp only [hi]
      exact hlog
  · intro hi
    simp only [recordDonation, hd, hu, hi]
    rw [if_pos hbt]
    rfl
  · intro inv hi
    have hpi : (inv.blood_type == usr.blood_type) = true := by
      simpa using List.find?_some hi
    simp only [recordDonation, hd, hu, hi]
    exact find?_map_update (fun i => i.blood_type == usr.blood_type)
      (fun _ => { inv with available_units := inv.available_units + (some u).getD 1 })
      (fun _ _ => hpi) s.inventory inv hi

/-- Closed instance of `recordDonation_appends_and_credits`: Alice (user 1,
`O+`) donates 2 units in `baseStore`; her empty log gains one entry and the
existing `O+` row goes from 7 to 9. -/
theorem recordDonation_appends_and_credits_witness :
    ((recordDonation baseStore 1 (some 2) none 50).2.donors.find?
        (fun dd => dd.user_id == 1) =
      some { dAlice with
        donation_log := dAlice.donation_log ++
          [⟨50, 2, "Recorded via dashboard"⟩]
        last_donation_date := some 50 }) ∧
    ((recordDonation baseStore 1 (some 2) none 50).2.inventory.find?
        (fun i => i.blood_type == uAlice.blood_type) =
      some { invO with available_units := invO.available_units + 2 }) :=
  ⟨(recordDonation_appends_and_credits baseStore 1 2 none 50 dAlice uAlice
      (by decide) (by decide) (by decide)).1,
   (recordDonation_appends_and_credits baseStore 1 2 none 50 dAlice uAlice
      (by decide) (by decide) (by decide)).2.2 invO (by decide)⟩

/-! ## C8 -/

/-- C8: a blood-type-filtered donor search only returns donor-role users
with exactly that blood type, each annotated with the availability flag
looked up in the Donor collection (absent when no profile exists), and an
empty match set is an empty success response. -/
theorem searchDonors_scoped_and_annotated (s : Store) (bt : String)
    (hbt : bt ≠ "") :
    (searchDonors s (some bt) none none).success = true ∧
    (∀ p ∈ (searchDonors s (some bt) none none).data,
      p.1.role = "donor" ∧ p.1.blood_type = bt ∧
      p.2 = (s.donors.find? (fun dd => dd.user_id == p.1.id)).map
        (·.availability)) ∧
    ((∀ u ∈ s.users, ¬(u.role = "donor" ∧ u.blood_type = bt)) →
      (searchDonors s (some bt) none none).data = []) := by
  have hq : qActive (some bt) = some bt := by simp [qActive, hbt]
  refine ⟨?_, ?_, ?_⟩
  · simp only [searchDonors]
    split
    · rfl
    · rfl
  · intro p hp
    simp only [searchDonors] at hp
    split at hp
    · simp at hp
    · rcases List.mem_map.mp hp with ⟨usr, humem, rfl⟩
      have hpred := (List.mem_filter.mp
        ((List.mem_insertionSort byFullName).mp humem)).2
      simp only [donorSearchPred, hq, show qActive none = none from rfl,
        Bool.and_eq_true, beq_iff_eq] at hpred
      exact ⟨hpred.1.1.1, hpred.1.1.2, rfl⟩
  · intro hnone
    have hf : s.users.filter (donorSearchPred (some bt) none none) = [] := by
      rw [List.filter_eq_nil_iff]
      intro u hu
      have := hnone u hu
      simp only [donorSearchPred, hq, show qActive none = none from rfl,
        Bool.and_eq_true, beq_iff_eq]
      intro hcontra
      exact this ⟨hcontra.1.1.1, hcontra.1.1.2⟩
    simp [searchDonors, hf]

/-- Closed instance of `searchDonors_scoped_and_annotated`: no donor-role
user in `baseStore` has blood type `A+` (Cara has `A+` but role `user`),
so the search answers success with an empty list. -/
theorem searchDonors_scoped_and_annotated_witness :
    (searchDonors baseStore (some "A+") none none).success = true ∧
    (searchDonors baseStore (some "A+") none none).data = [] :=
  ⟨(searchDonors_scoped_and_annotated baseStore "A+" (by decide)).1,
   (searchDonors_scoped_and_annotated baseStore "A+" (by decide)).2.2
     (by decide)⟩

/-! ## C6 -/

/-- C6 counterexample: Dila (user 4) is a donor with no region.  The claim
says she sees `{role = all} ∪ {role = donor, region = her region}` — which
excludes `nDonorNorth` (region `North` ≠ her absent region) — but the code
strips the undefined `region` key from the Mongo filter and returns
`nDonorNorth` to her. -/
theorem listNotifications_counterexample :
    baseStore.users.find? (fun x => x.id == 4) = some uDila ∧
    uDila.role = "donor" ∧ uDila.region = none ∧
    listNotifications baseStore 4 = .ok [nDonorNorth, nAll] ∧
    nDonorNorth.role = "donor" ∧ nDonorNorth.region = some "North" ∧
    specNotifVisible uDila nDonorNorth = false := by
  decide

/-- C6 (amended): `listNotifications` answers newest-first; an admin sees
every notification; a donor with a (non-empty) region sees
`{role = all} ∪ {role = donor ∧ region = own}`; any other caller WITH a
region sees `{role = all} ∪ {role = own-role ∧ region = own}`; but a
caller with NO region (outside the first two branches) sees
`{role = all} ∪ {role = own-role}` — the region constraint is dropped,
not compared against the absent region. -/
theorem listNotifications_visibility (s : Store) (uid : Nat) (user : UserDoc)
    (hu : s.users.find? (fun x => x.id == uid) = some user) :
    ∃ l, listNotifications s uid = .ok l ∧
      l.Sorted newestFirstNotif ∧
      l.Perm (s.notifications.filter (notifVisible user)) ∧
      (user.role = "admin" → ∀ n, n ∈ l ↔ n ∈ s.notifications) ∧
      (∀ rg, user.role = "donor" → user.region = some rg → rg ≠ "" →
        ∀ n, n ∈ l ↔ (n ∈ s.notifications ∧
          (n.role = "all" ∨ (n.role = "donor" ∧ n.region = some rg)))) ∧
      (user.role ≠ "admin" →
        ¬(user.role = "donor" ∧ truthy user.region = true) →
        (user.region = none →
          ∀ n, n ∈ l ↔ (n ∈ s.notifications ∧
            (n.role = "all" ∨ n.role = user.role))) ∧
        (∀ rg, user.region = some rg →
          ∀ n, n ∈ l ↔ (n ∈ s.notifications ∧
            (n.role = "all" ∨ (n.role = user.role ∧ n.region = some rg))))) := by
  refine ⟨List.insertionSort newestFirstNotif
      (s.notifications.filter (notifVisible user)),
    by simp only [listNotifications, hu], ?_, ?_, ?_, ?_, ?_⟩
  · exact List.sorted_insertionSort newestFirstNotif _
  · exact List.perm_insertionSort newestFirstNotif _
  · intro hrole n
    rw [List.mem_insertionSort, List.mem_filter]
    simp [notifVisible, hrole]
  · intro rg hrole hreg hrg n
    rw [List.mem_insertionSort, List.mem_filter]
    have ht : truthy user.region = true := by
      rw [hreg]; simp [truthy, isBlank, hrg]
    simp [notifVisible, hrole, hreg, ht]
  · intro hna hnd
    constructor
    · intro hreg n
      rw [hreg] at hnd
      rw [List.mem_insertionSort, List.mem_filter]
      simp [notifVisible, hna, hnd, hreg, truthy, isBlank]
    · intro rg hreg n
      rw [hreg] at hnd
      rw [List.mem_insertionSort, List.mem_filter]
      simp [notifVisible, hna, hnd, hreg]

/-- Closed instance of `listNotifications_visibility`: Bob (user 2, role
`user`, region North) sees the broadcast `nAll` and `nUserNorth`, newest
first, but not the donor notification. -/
theorem listNotifications_visibility_witness :
    nUserNorth ∈ [nUserNorth, nAll] ↔ (nUserNorth ∈ baseStore.notifications ∧
      (nUserNorth.role = "all" ∨
        (nUserNorth.role = "user" ∧ nUserNorth.region = some "North"))) := by
  rcases listNotifications_visibility baseStore 2 uBob (by decide) with
    ⟨l, hl, _, _, _, _, hother⟩
  have hlv : l = [nUserNorth, nAll] := by
    have : listNotifications baseStore 2 = .ok [nUserNorth, nAll] := by decide
    rw [this] at hl
    injection hl with h
    exact h.symm
  have := (hother (by decide) (by decide)).2 "North" (by decide) nUserNorth
  rw [hlv] at this
  exact this
